import Mathlib

/-!
Verification of the crawling & extraction engine of the blog-SEO-analyzer
repository, shallowly embedded in Lean 4.

The embedding follows `backend/crawling_service/crawler.py`,
`backend/shared/config.py` and `backend/shared/models.py`.  Effectful
operations (network fetches, the wall clock, DOM queries of the parsed
HTML) are passed in as explicit oracle values; everything else is
translated function-for-function from the Python source.
-/

/-! ## Date parsing (`ContentExtractor._parse_date`)

The Python code calls `datetime.strptime(date_str[:len(fmt)], fmt)` for a
fixed list of six format strings.  We model CPython's `_strptime` for the
directives that occur in those formats (`%Y %m %d %H %M %S`) using the
exact regular-expression alternatives of `Lib/_strptime.py`:
  %Y = four digits; %m = `1[0-2]|0[1-9]|[1-9]`; %d = `3[01]|[12]d|0[1-9]|[1-9]`;
  %H = `2[0-3]|[0-1]d|d`; %M = `[0-5]d|d`; %S = `6[0-1]|[0-5]d|d`.
Each non-`%Y` directive therefore has some two-digit alternatives followed
by a one-digit alternative, tried with backtracking; the whole data string
must be consumed (strptime's "unconverted data remains" check).  A match
whose fields do not form a valid calendar date (or a second above 59)
raises `ValueError` in `datetime(...)`, caught by the `except ValueError`
in `_parse_date`; we model that with a validity check. -/

structure DateTime where
  year : Nat
  month : Nat
  day : Nat
  hour : Nat
  minute : Nat
  second : Nat
deriving DecidableEq, Repr

/-- Tokenised strptime format string: a literal character or a directive. -/
inductive FmtTok where
  | lit (c : Char)
  | dirY
  | dirm
  | dird
  | dirH
  | dirM
  | dirS
deriving DecidableEq, Repr

/-- Length contributed to the Python format string: directives are two
characters (`%Y`), literals one. -/
def tokLen : FmtTok → Nat
  | .lit _ => 1
  | _ => 2

/-- Partially matched time fields, with strptime's defaults
(year 1900, Jan 1, midnight). -/
structure TM where
  Y : Nat := 1900
  Mo : Nat := 1
  D : Nat := 1
  H : Nat := 0
  Mi : Nat := 0
  S : Nat := 0
deriving DecidableEq, Repr

def digitVal (c : Char) : Option Nat :=
  if c.isDigit then some (c.toNat - 48) else none

/-- The two-digit alternatives of each directive's regular expression,
given the two digit values; `none` when no two-digit alternative matches. -/
def twoDigitCand : FmtTok → Nat → Nat → Option Nat
  | .dirm, x, y => if (x = 1 ∧ y ≤ 2) ∨ (x = 0 ∧ 1 ≤ y) then some (10 * x + y) else none
  | .dird, x, y =>
      if (x = 3 ∧ y ≤ 1) ∨ x = 1 ∨ x = 2 ∨ (x = 0 ∧ 1 ≤ y) then some (10 * x + y) else none
  | .dirH, x, y => if (x = 2 ∧ y ≤ 3) ∨ x ≤ 1 then some (10 * x + y) else none
  | .dirM, x, y => if x ≤ 5 then some (10 * x + y) else none
  | .dirS, x, y => if (x = 6 ∧ y ≤ 1) ∨ x ≤ 5 then some (10 * x + y) else none
  | _, _, _ => none

/-- The trailing one-digit alternative of each directive's regular
expression (`[1-9]` for month and day, `d` for the time fields). -/
def oneDigitCand : FmtTok → Nat → Option Nat
  | .dirm, x => if 1 ≤ x then some x else none
  | .dird, x => if 1 ≤ x then some x else none
  | .dirH, x => some x
  | .dirM, x => some x
  | .dirS, x => some x
  | _, _ => none

def setTM : FmtTok → Nat → TM → TM
  | .dirm, v, t => { t with Mo := v }
  | .dird, v, t => { t with D := v }
  | .dirH, v, t => { t with H := v }
  | .dirM, v, t => { t with Mi := v }
  | .dirS, v, t => { t with S := v }
  | _, _, t => t

/-- Regex-style matching of a tokenised format against the data string,
with backtracking (two-digit alternatives are preferred, falling back to
the one-digit alternative when the rest of the match fails), requiring the
whole data string to be consumed. -/
def matchToks : List FmtTok → List Char → Option TM
  | [], cs => if cs.isEmpty then some {} else none
  | .lit _ :: _, [] => none
  | .lit c :: ts, x :: rest => if x = c then matchToks ts rest else none
  | .dirY :: ts, cs =>
      match cs with
      | a :: b :: c :: d :: rest =>
          match digitVal a, digitVal b, digitVal c, digitVal d with
          | some w, some x, some y, some z =>
              match matchToks ts rest with
              | some t => some { t with Y := 1000 * w + 100 * x + 10 * y + z }
              | none => none
          | _, _, _, _ => none
      | _ => none
  | tok :: ts, cs =>
      let one : Option TM :=
        match cs with
        | x :: rest =>
            match digitVal x with
            | some dx =>
                match oneDigitCand tok dx with
                | some v =>
                    match matchToks ts rest with
                    | some t => some (setTM tok v t)
                    | none => none
                | none => none
            | none => none
        | [] => none
      match cs with
      | x :: y :: rest =>
          match digitVal x, digitVal y with
          | some dx, some dy =>
              match twoDigitCand tok dx dy with
              | some v =>
                  match matchToks ts rest with
                  | some t => some (setTM tok v t)
                  | none => one
              | none => one
          | _, _ => one
      | _ => one

def isLeapYear (y : Nat) : Bool :=
  (y % 4 == 0 && y % 100 != 0) || y % 400 == 0

def daysInMonth (y m : Nat) : Nat :=
  if m = 2 then (if isLeapYear y then 29 else 28)
  else if m = 4 ∨ m = 6 ∨ m = 9 ∨ m = 11 then 30
  else 31

/-- Validity conditions enforced by the `datetime` constructor beyond what
the directive patterns already guarantee (MINYEAR, day range, no leap
second). -/
def validTM (t : TM) : Bool :=
  1 ≤ t.Y && 1 ≤ t.D && t.D ≤ daysInMonth t.Y t.Mo && t.S ≤ 59

def toDateTime (t : TM) : DateTime :=
  ⟨t.Y, t.Mo, t.D, t.H, t.Mi, t.S⟩

/-- `datetime.strptime(s, fmt)` as used in `_parse_date`: `none` models the
`ValueError` caught by the caller. -/
def strptime (fmt : List FmtTok) (s : String) : Option DateTime :=
  match matchToks fmt s.toList with
  | some t => if validTM t then some (toDateTime t) else none
  | none => none

/-- `"%Y-%m-%d"` -/
def fmt_iso_date : List FmtTok := [.dirY, .lit '-', .dirm, .lit '-', .dird]

/-- `"%Y-%m-%dT%H:%M:%S"` -/
def fmt_iso_dt : List FmtTok :=
  [.dirY, .lit '-', .dirm, .lit '-', .dird, .lit 'T', .dirH, .lit ':', .dirM, .lit ':', .dirS]

/-- `"%Y-%m-%dT%H:%M:%SZ"` -/
def fmt_iso_dt_z : List FmtTok := fmt_iso_dt ++ [.lit 'Z']

/-- `"%Y-%m-%d %H:%M:%S"` -/
def fmt_space_dt : List FmtTok :=
  [.dirY, .lit '-', .dirm, .lit '-', .dird, .lit ' ', .dirH, .lit ':', .dirM, .lit ':', .dirS]

/-- `"%Y.%m.%d"` -/
def fmt_dot_date : List FmtTok := [.dirY, .lit '.', .dirm, .lit '.', .dird]

/-- `"%Y/%m/%d"` -/
def fmt_slash_date : List FmtTok := [.dirY, .lit '/', .dirm, .lit '/', .dird]

/-- The `formats` list of `ContentExtractor._parse_date`, in source order. -/
def date_formats : List (List FmtTok) :=
  [fmt_iso_date, fmt_iso_dt, fmt_iso_dt_z, fmt_space_dt, fmt_dot_date, fmt_slash_date]

/-- `len(fmt)` of the Python format string. -/
def fmtStrLen (f : List FmtTok) : Nat := (f.map tokLen).sum

/-- `ContentExtractor._parse_date`: the empty-string guard (`if not
date_str`), then each format tried in order on `date_str[:len(fmt)]`,
first success winning; all parse failures yield `None`. -/
def parse_date (s : String) : Option DateTime :=
  if s.isEmpty then none
  else date_formats.findSome? (fun f => strptime f (s.take (fmtStrLen f)))

/-- `_parse_date(meta_elem.get("content"))`, where the attribute may be
absent (`None` is falsy, so `_parse_date` returns `None`). -/
def parse_date_opt (c : Option String) : Option DateTime :=
  match c with
  | some s => parse_date s
  | none => none

/-! ## Platform detection (`PlatformDetector`)

Every pattern in `PLATFORM_PATTERNS` consists of literal characters and
escaped dots only, so `re.search(pattern, url)` is exactly a substring
test for the pattern with its backslashes removed. -/

/-- `PlatformDetector.PLATFORM_PATTERNS`, in source (insertion) order. -/
def PLATFORM_PATTERNS : List (String × List String) :=
  [("naver", ["blog\\.naver\\.com", "m\\.blog\\.naver\\.com"]),
   ("tistory", ["\\.tistory\\.com", "tistory\\.com"]),
   ("wordpress", ["wordpress\\.com", "wp\\.com", "/wp-content/", "/wp-includes/"]),
   ("medium", ["medium\\.com", "\\.medium\\.com"]),
   ("brunch", ["brunch\\.co\\.kr"])]

/-- The literal string denoted by one of the patterns above: they contain
no regex metacharacter other than the escaped dot. -/
def regexLit (p : String) : String :=
  String.mk (p.toList.filter (fun c => c ≠ '\\'))

/-- `re.search(pattern, s)` for the literal patterns above: substring
containment. -/
def re_search (pattern s : String) : Bool :=
  decide ((regexLit pattern).toList <:+: s.toList)

/-- Inner loop of `detect_platform`: `for pattern in patterns: if
re.search(pattern, url_lower): return platform`. -/
def platform_matches (u : String) (pats : List String) : Bool :=
  pats.any (fun p => re_search p u)

def detect_go (u : String) : List (String × List String) → Option String
  | [] => none
  | (platform, patterns) :: rest =>
      if platform_matches u patterns then some platform else detect_go u rest

/-- `url.lower()`; the signature patterns are ASCII, so ASCII case
folding is the relevant behaviour. -/
def strToLower (s : String) : String :=
  String.mk (s.toList.map Char.toLower)

/-- `PlatformDetector.detect_platform`: lower-case the URL, scan platforms
in order, return the first whose pattern list has a match, else `None`. -/
def detect_platform (url : String) : Option String :=
  detect_go (strToLower url) PLATFORM_PATTERNS

/-! ## URL helpers (`urllib.parse`)

`urlparse(url).netloc` and `urljoin(base, href)` are modelled for the
shapes the crawler feeds them: the base/source URL is an absolute
`scheme://authority/...` URL, and `urljoin` is only reached for hrefs
starting with `/` (root-relative or protocol-relative). -/

/-- Python's `str.startswith(pre)`: `pre` is a prefix of the string. -/
def strStartsWith (s pre : String) : Bool :=
  decide (pre.toList <+: s.toList)

/-- Split a character list at the first occurrence of `://`, returning
the part before and the part after; `none` when the separator is
absent. -/
def breakOnSep : List Char → Option (List Char × List Char)
  | [] => none
  | c :: rest =>
      if c = ':' ∧ rest.take 2 = ['/', '/'] then some ([], rest.drop 2)
      else
        match breakOnSep rest with
        | some (pre, post) => some (c :: pre, post)
        | none => none

/-- Scheme of a URL, empty when the URL has no `://` separator. -/
def urlScheme (u : String) : String :=
  match breakOnSep u.toList with
  | some (pre, _) => String.mk pre
  | none => ""

/-- `urlparse(u).netloc`: the authority component between `://` and the
next `/`, `?` or `#`; empty when there is no `://`. -/
def urlNetloc (u : String) : String :=
  match breakOnSep u.toList with
  | some (_, post) => String.mk (post.takeWhile (fun c => c ≠ '/' ∧ c ≠ '?' ∧ c ≠ '#'))
  | none => ""

/-- `urljoin(base, href)`, modelled for the cases the extractor reaches
(href starting with `/`): a protocol-relative href (`//host/...`) takes
the base URL's scheme; any other href starting with `/` replaces the
base's path, keeping scheme and authority.  A base without a scheme
leaves the href unchanged, as `urljoin` does for a scheme-less base. -/
def urljoin (base href : String) : String :=
  if strStartsWith href "//" then
    (if urlScheme base = "" then href else urlScheme base ++ ":" ++ href)
  else
    (if urlScheme base = "" then href
     else urlScheme base ++ "://" ++ urlNetloc base ++ href)

/-! ## Content extraction (`ContentExtractor`)

The parsed HTML document is embedded at the granularity of the queries
the extractor issues against it: `select_one` with a selector string,
`find("title")`, `find("meta", attrs={...}).get("content")` (the element
may exist while its content attribute is absent), and the href/src
attribute lists of all anchors/images.  An element carries its stripped
text, its text after `script`/`style`/`nav`/`footer` subtrees are
decomposed (used only by the content field), and its `datetime`
attribute (used only by the date field). -/

structure Elem where
  text : String
  cleanText : String
  datetimeAttr : Option String

structure Doc where
  selectOne : String → Option Elem
  titleTag : Option Elem
  metaByName : String → Option (Option String)
  metaOgDescription : Option (Option String)
  anchorHrefs : List String
  imgSrcs : List String

/-- A platform's selector table (`config.CrawlingSettings.PLATFORM_SELECTORS`
entry or the default table in `ContentExtractor._get_selectors`). -/
structure Selectors where
  title : String
  content : String
  meta_description : String
  author : String
  date : String

def default_selectors : Selectors :=
  { title := "h1, title"
    content := "article, .content, .post, .entry"
    meta_description := "meta[name=\x27description\x27]"
    author := ".author, .writer, .by"
    date := ".date, .published, time" }

def PLATFORM_SELECTORS : List (String × Selectors) :=
  [("naver",
    { title := "h3.se_title, .se-title-text"
      content := ".se-main-container, .se-component"
      meta_description := "meta[name=\x27description\x27]"
      author := ".nick, .blog_nick"
      date := ".se-date, .blog_date" }),
   ("tistory",
    { title := "h1.entry-title, .article-header h1"
      content := ".entry-content, .article-view"
      meta_description := "meta[name=\x27description\x27]"
      author := ".author, .writer"
      date := ".article-date, .published" }),
   ("wordpress",
    { title := "h1.entry-title, .wp-block-post-title"
      content := ".entry-content, .wp-block-post-content"
      meta_description := "meta[name=\x27description\x27]"
      author := ".author, .wp-block-post-author"
      date := ".entry-date, .wp-block-post-date" }),
   ("medium",
    { title := "h1, article h1"
      content := "article section, .postArticle-content"
      meta_description := "meta[name=\x27description\x27]"
      author := ".postMetaInline a, .author"
      date := ".date, time" }),
   ("brunch",
    { title := ".wrap_title h1"
      content := ".wrap_body"
      meta_description := "meta[name=\x27description\x27]"
      author := ".by_author"
      date := ".wrap_date" })]

/-- `ContentExtractor._get_selectors`. -/
def get_selectors (platform : Option String) : Selectors :=
  match platform with
  | some p =>
      match PLATFORM_SELECTORS.find? (fun e => e.1 = p) with
      | some e => e.2
      | none => default_selectors
  | none => default_selectors

/-- `ContentExtractor._extract_title`. -/
def extract_title (sel : Selectors) (d : Doc) : Option String :=
  match d.selectOne sel.title with
  | some e => some e.text
  | none =>
      match d.titleTag with
      | some e => some e.text
      | none => none

/-- `ContentExtractor._extract_content` (text of the matched subtree after
decomposing script/style/nav/footer). -/
def extract_content_field (sel : Selectors) (d : Doc) : Option String :=
  (d.selectOne sel.content).map (fun e => e.cleanText)

/-- `ContentExtractor._extract_meta_description`: a present `description`
meta element short-circuits even when its content attribute is absent. -/
def extract_meta_description (d : Doc) : Option String :=
  match d.metaByName "description" with
  | some contentAttr => contentAttr
  | none =>
      match d.metaOgDescription with
      | some contentAttr => contentAttr
      | none => none

/-- `ContentExtractor._extract_meta_keywords`. -/
def extract_meta_keywords (d : Doc) : Option String :=
  match d.metaByName "keywords" with
  | some contentAttr => contentAttr
  | none => none

/-- `ContentExtractor._extract_author`. -/
def extract_author (sel : Selectors) (d : Doc) : Option String :=
  match d.selectOne sel.author with
  | some e => some e.text
  | none =>
      match d.metaByName "author" with
      | some contentAttr => contentAttr
      | none => none

/-- Python's `a or b` for `date_elem.get("datetime") or
date_elem.get_text(strip=True)`: an absent or empty attribute falls back
to the element text. -/
def attrOrText (a : Option String) (t : String) : String :=
  match a with
  | some s => if s.isEmpty then t else s
  | none => t

/-- `ContentExtractor._extract_date`. -/
def extract_date (sel : Selectors) (d : Doc) : Option DateTime :=
  match d.selectOne sel.date with
  | some e => parse_date (attrOrText e.datetimeAttr e.text)
  | none =>
      match d.metaByName "date" with
      | some contentAttr => parse_date_opt contentAttr
      | none => none

/-- The per-href branch of `_extract_links` / per-src branch of
`_extract_images`: scheme-prefixed references are kept, references
starting with `/` are joined to the base URL, everything else is
dropped. -/
def keepLink (base href : String) : Option String :=
  if strStartsWith href "http://" || strStartsWith href "https://" then some href
  else if strStartsWith href "/" then some (urljoin base href)
  else none

/-- `ContentExtractor._extract_links`; `list(set(links))` is modelled by
`dedup` (the spec promises no ordering). -/
def extract_links (d : Doc) (base : String) : List String :=
  (d.anchorHrefs.filterMap (keepLink base)).dedup

/-- `ContentExtractor._extract_images`. -/
def extract_images (d : Doc) (base : String) : List String :=
  (d.imgSrcs.filterMap (keepLink base)).dedup

/-- The dictionary built by `ContentExtractor.extract_content`. -/
structure ExtractedContent where
  title : Option String
  content : Option String
  meta_description : Option String
  meta_keywords : Option String
  author : Option String
  published_date : Option DateTime
  links : List String
  images : List String

/-- `ContentExtractor.extract_content` for a given platform (the
constructor binds the selector table). -/
def extract_content (platform : Option String) (d : Doc) (url : String) : ExtractedContent :=
  let sel := get_selectors platform
  { title := extract_title sel d
    content := extract_content_field sel d
    meta_description := extract_meta_description d
    meta_keywords := extract_meta_keywords d
    author := extract_author sel d
    published_date := extract_date sel d
    links := extract_links d url
    images := extract_images d url }

/-! ## Configuration (`backend/shared/config.py`)

Delays are seconds; we model real-valued time with rationals. -/

structure RateProfile where
  delay : Rat
  concurrent : Nat
deriving DecidableEq, Repr

/-- `CrawlingSettings.RATE_LIMITS`. -/
def RATE_LIMITS : List (String × RateProfile) :=
  [("naver", ⟨2, 5⟩),
   ("tistory", ⟨1, 10⟩),
   ("wordpress", ⟨1/2, 20⟩),
   ("medium", ⟨3/2, 8⟩),
   ("brunch", ⟨2, 5⟩)]

/-- `Settings.REQUEST_DELAY` default. -/
def REQUEST_DELAY : Rat := 1

/-- `Settings.CONCURRENT_REQUESTS` default. -/
def CONCURRENT_REQUESTS : Nat := 16

/-! ## Rate limiter (`RateLimiter`)

`wait_if_needed` reads `time.time()` once on entry (`now`) and once more
when recording the domain's timestamp after any sleep; the two readings
are the oracle inputs `tNow` and `tAfter`.  The returned rational is the
duration passed to `asyncio.sleep` (zero when the caller proceeds
immediately). -/

/-- `self.last_requests`, a dict keyed by domain; assignment is modelled
by consing, lookup by first match. -/
structure RateLimiterState where
  last_requests : List (String × Rat)
deriving DecidableEq, Repr

def lookupDomain (st : RateLimiterState) (d : String) : Option Rat :=
  (st.last_requests.find? (fun e => e.1 = d)).map (fun e => e.2)

def updateDomain (st : RateLimiterState) (d : String) (t : Rat) : RateLimiterState :=
  ⟨(d, t) :: st.last_requests⟩

/-- The delay selection of `wait_if_needed`: the platform's configured
delay when the platform is present in `RATE_LIMITS`, else the
process-wide default. -/
def requiredDelay (platform : Option String) : Rat :=
  match platform with
  | some p =>
      match RATE_LIMITS.find? (fun e => e.1 = p) with
      | some e => e.2.delay
      | none => REQUEST_DELAY
  | none => REQUEST_DELAY

/-- `RateLimiter.wait_if_needed`: returns the sleep duration and the
updated state; the domain's timestamp is set to `tAfter`, the clock
reading taken after the sleep, as the final action of the call. -/
def wait_if_needed (st : RateLimiterState) (domain : String) (platform : Option String)
    (tNow tAfter : Rat) : Rat × RateLimiterState :=
  let delay := requiredDelay platform
  let wait : Rat :=
    match lookupDomain st domain with
    | some last =>
        let time_since_last := tNow - last
        if time_since_last < delay then delay - time_since_last else 0
    | none => 0
  (wait, updateDomain st domain tAfter)

/-! ## Fetching and the crawl pipeline (`BlogCrawler`)

The aiohttp session is an oracle mapping a URL to either a network-level
failure (any exception raised by `session.get`/`response.text`) or a
response carrying status, body text and reason phrase.  The browser
fetch of `_crawl_with_browser` is likewise an oracle.  `Except.error`
models a raised exception carrying `str(e)`. -/

structure HttpResponse where
  status : Nat
  text : String
  reason : String
deriving DecidableEq, Repr

inductive NetOutcome where
  | ok (r : HttpResponse)
  | err (msg : String)
deriving DecidableEq, Repr

/-- The live aiohttp session, when initialised. -/
def SessionOracle : Type := String → NetOutcome

/-- `BlogCrawler._crawl_with_http`: a missing session raises
`RuntimeError`, a response with status >= 400 raises
`Exception(f"HTTP {status_code}: {reason}")`, otherwise the body text and
status are returned. -/
def crawl_with_http (session : Option SessionOracle) (url : String) :
    Except String (String × Nat) :=
  match session with
  | none => Except.error "Session not initialized. Use async context manager."
  | some get =>
      match get url with
      | .err m => Except.error m
      | .ok r =>
          if 400 ≤ r.status then
            Except.error ("HTTP " ++ toString r.status ++ ": " ++ r.reason)
          else
            Except.ok (r.text, r.status)

/-- `BlogCrawler._needs_browser`. -/
def needs_browser (platform : Option String) : Bool :=
  platform = some "naver" || platform = some "medium"

/-- `CrawlResult` (`backend/shared/models.py`), with every optional field
defaulting to `None` as in the Pydantic model. -/
structure CrawlResult where
  url : String
  success : Bool
  status_code : Option Nat := none
  title : Option String := none
  content : Option String := none
  meta_description : Option String := none
  meta_keywords : Option String := none
  author : Option String := none
  published_date : Option DateTime := none
  platform : Option String := none
  links : Option (List String) := none
  images : Option (List String) := none
  error_message : Option String := none
  response_time : Option Rat := none
deriving DecidableEq, Repr

/-- Oracle inputs of one `crawl_url` call: the session, the browser
fetcher, the HTML parser (`BeautifulSoup(html, "html.parser")` never
raises on string input), and the four `time.time()` readings (pipeline
start, the two limiter readings, pipeline end). -/
structure CrawlEnv where
  session : Option SessionOracle
  browserFetch : String → Except String (String × Nat)
  parseHtml : String → Doc
  tStart : Rat
  tLimNow : Rat
  tLimAfter : Rat
  tEnd : Rat

/-- Fetch-strategy routing inside `crawl_url`:
`use_browser or self._needs_browser(platform)`. -/
def route_fetch (env : CrawlEnv) (url : String) (use_browser : Bool) :
    Except String (String × Nat) :=
  if use_browser || needs_browser (detect_platform url) then env.browserFetch url
  else crawl_with_http env.session url

/-- `BlogCrawler.crawl_url`: the whole pipeline runs inside one `try`;
any raised exception is converted to a failure `CrawlResult` whose only
populated fields are the URL, the error message and the elapsed time. -/
def crawl_url (env : CrawlEnv) (st : RateLimiterState) (url : String) (use_browser : Bool) :
    CrawlResult × RateLimiterState :=
  let platform := detect_platform url
  let domain := urlNetloc url
  let waitSt := wait_if_needed st domain platform env.tLimNow env.tLimAfter
  let st' := waitSt.2
  match route_fetch env url use_browser with
  | .error e =>
      ({ url := url
         success := false
         error_message := some e
         response_time := some (env.tEnd - env.tStart) }, st')
  | .ok (html, status) =>
      let doc := env.parseHtml html
      let c := extract_content platform doc url
      ({ url := url
         success := true
         status_code := some status
         platform := platform
         response_time := some (env.tEnd - env.tStart)
         title := c.title
         content := c.content
         meta_description := c.meta_description
         meta_keywords := c.meta_keywords
         author := c.author
         published_date := c.published_date
         links := some c.links
         images := some c.images }, st')

/-! ## Concurrent orchestration (`BlogCrawler.crawl_multiple`)

`asyncio.gather(*tasks, return_exceptions=True)` returns one outcome per
task in task-creation order (which is input order), regardless of
completion order; an escaped exception occupies its task's slot.  The
per-URL outcome is the oracle `run`: `Except.error` models a task that
ended with an exception not caught inside `crawl_url`. -/

/-- The exception-handling loop body of `crawl_multiple`: an exception in
slot `i` becomes `CrawlResult(url=urls[i], success=False,
error_message=str(result))`. -/
def handle_outcome (url : String) (r : Except String CrawlResult) : CrawlResult :=
  match r with
  | .error e => { url := url, success := false, error_message := some e }
  | .ok res => res

/-- `BlogCrawler.crawl_multiple`: one result per URL, in input order. -/
def crawl_multiple (urls : List String) (run : String → Except String CrawlResult) :
    List CrawlResult :=
  urls.map (fun u => handle_outcome u (run u))

/-! ## The concurrency ceiling of `crawl_multiple`

`crawl_multiple` wraps every `crawl_url` call in
`async with semaphore` for `semaphore = asyncio.Semaphore(CONCURRENT_REQUESTS)`.
The semaphore discipline is modelled as a transition system: a task
enters the pipeline (acquire) only when a permit is available, and
releases its permit when it completes.  `inFlight` is the set of task
identifiers currently inside `crawl_url`. -/

structure SemSt where
  available : Nat
  inFlight : Finset Nat
deriving DecidableEq

/-- Initial state: all permits free, no task in flight. -/
def initSemSt (cap : Nat) : SemSt := ⟨cap, ∅⟩

/-- One scheduler step of the permit discipline in `crawl_multiple`. -/
inductive SemStep : SemSt → SemSt → Prop where
  | acquire (s : SemSt) (t : Nat) (hav : 0 < s.available) (ht : t ∉ s.inFlight) :
      SemStep s ⟨s.available - 1, insert t s.inFlight⟩
  | release (s : SemSt) (t : Nat) (ht : t ∈ s.inFlight) :
      SemStep s ⟨s.available + 1, s.inFlight.erase t⟩

/-- States reachable from the initial state of a `crawl_multiple` run
with `cap` permits. -/
def SemReachable (cap : Nat) (s : SemSt) : Prop :=
  Relation.ReflTransGen SemStep (initSemSt cap) s

/-! ## Theorems -/

/-- Permit-counting invariant of the semaphore discipline: free permits
plus in-flight tasks always total the configured capacity. -/
theorem semReachable_invariant {cap : Nat} {s : SemSt} (h : SemReachable cap s) :
    s.available + s.inFlight.card = cap := by
  induction h with
  | refl => simp [initSemSt]
  | tail _ hstep ih =>
      cases hstep with
      | acquire t hav ht =>
          simp only [Finset.card_insert_of_not_mem ht]
          omega
      | release t ht =>
          have hpos := Finset.card_pos.mpr ⟨t, ht⟩
          simp only [Finset.card_erase_of_mem ht]
          omega

/-- Auxiliary characterization of the platform scan: the first platform in
configuration order with a matching pattern wins, `none` otherwise. -/
theorem detect_go_eq_find (u : String) (l : List (String × List String)) :
    detect_go u l = (l.find? (fun e => platform_matches u e.2)).map Prod.fst := by
  induction l with
  | nil => rfl
  | cons hd tl ih =>
      obtain ⟨pl, pats⟩ := hd
      by_cases h : platform_matches u pats
      · simp [detect_go, h]
      · simp [detect_go, h, ih]

/-- C5: `detect_platform` is a pure total function: the URL is
lower-cased, platforms are scanned in configuration order with each one's
pattern list, and the first platform with a matching pattern is returned;
a URL matching no signature yields `none` (the "unknown" tag), never an
error; on overlap the platform listed first in configuration order wins.
Concretely, `https://blog.naver.com/x` maps to naver and
`https://example.org/post` to unknown. -/
theorem detect_platform_spec (url : String) :
    detect_platform url
        = (PLATFORM_PATTERNS.find? (fun e => platform_matches (strToLower url) e.2)).map Prod.fst
      ∧ ((∀ e ∈ PLATFORM_PATTERNS, platform_matches (strToLower url) e.2 = false) →
          detect_platform url = none)
      ∧ detect_platform "https://blog.naver.com/x" = some "naver"
      ∧ detect_platform "https://example.org/post" = none := by
  refine ⟨detect_go_eq_find (strToLower url) PLATFORM_PATTERNS, ?_, by decide, by decide⟩
  intro h
  rw [detect_platform, detect_go_eq_find, List.find?_eq_none.mpr]
  · rfl
  · intro e he
    simp [h e he]

/-- C5 witness: the characterization applied at a URL with no matching
signature. -/
theorem detect_platform_spec_witness :
    detect_platform "https://example.org/post" = none :=
  (detect_platform_spec "https://example.org/post").2.1 (by decide)

/-- C2 (code bug): the claim says `"2024-01-15"` parses to
January 15, 2024, but `_parse_date` truncates the input to the *format
string's* length, so `"%Y-%m-%d"` (length 8) is tried on `"2024-01-"`,
which matches no format, and every other format fails as well: the code
returns `None`.  The claim's second example (`"15/01/2024"` yields an
absent date) does hold. -/
theorem parse_date_truncation_bug :
    parse_date "2024-01-15" = none ∧ parse_date "15/01/2024" = none := by
  constructor <;> decide

/-- C4: the rate limiter proceeds immediately for a domain with no
recorded request; otherwise, with the required delay taken from the
platform's profile when one is configured and the process-wide default
otherwise, a caller arriving before the delay has elapsed is suspended
for exactly `required_delay - elapsed`; and the domain's timestamp is
recorded, as the final step, as the clock reading taken after the
suspension. -/
theorem wait_if_needed_spec (st : RateLimiterState) (domain : String)
    (platform : Option String) (tNow tAfter : Rat) :
    (lookupDomain st domain = none →
        (wait_if_needed st domain platform tNow tAfter).1 = 0)
      ∧ (∀ last, lookupDomain st domain = some last →
          tNow - last < requiredDelay platform →
          (wait_if_needed st domain platform tNow tAfter).1
            = requiredDelay platform - (tNow - last))
      ∧ (∀ last, lookupDomain st domain = some last →
          requiredDelay platform ≤ tNow - last →
          (wait_if_needed st domain platform tNow tAfter).1 = 0)
      ∧ lookupDomain (wait_if_needed st domain platform tNow tAfter).2 domain = some tAfter
      ∧ (∀ p prof, (p, prof) ∈ RATE_LIMITS → requiredDelay (some p) = prof.delay)
      ∧ (∀ p, RATE_LIMITS.find? (fun e => e.1 = p) = none →
          requiredDelay (some p) = REQUEST_DELAY)
      ∧ requiredDelay none = REQUEST_DELAY := by
  refine ⟨?_, ?_, ?_, ?_, ?_, ?_, rfl⟩
  · intro h
    simp [wait_if_needed, h]
  · intro last h hlt
    simp [wait_if_needed, h, hlt]
  · intro last h hge
    simp [wait_if_needed, h, not_lt.mpr hge]
  · simp [wait_if_needed, updateDomain, lookupDomain]
  · intro p prof hmem
    fin_cases hmem <;> rfl
  · intro p hnone
    simp [requiredDelay, hnone]

/-- C4 witness: a fresh domain proceeds immediately, and after the call
its timestamp is the post-suspension clock reading. -/
theorem wait_if_needed_spec_witness :
    (wait_if_needed ⟨[]⟩ "blog.naver.com" (some "naver") 10 10).1 = 0
      ∧ lookupDomain (wait_if_needed ⟨[]⟩ "blog.naver.com" (some "naver") 10 10).2
          "blog.naver.com" = some 10 := by
  have h := wait_if_needed_spec ⟨[]⟩ "blog.naver.com" (some "naver") 10 10
  exact ⟨h.1 (by decide), h.2.2.2.1⟩

/-- C1: `crawl_url` never propagates a failure: whatever the URL and the
browser flag, a failing fetch pipeline produces exactly the failure
record — `success = false`, the error message present, and every content
field (title, content, meta description, meta keywords, author,
published date, links, images) and the status code absent — while a
successful fetch produces `success = true` with the status code
present. -/
theorem crawl_url_spec (env : CrawlEnv) (st : RateLimiterState) (url : String)
    (use_browser : Bool) :
    (∀ e, route_fetch env url use_browser = Except.error e →
        (crawl_url env st url use_browser).1
          = { url := url
              success := false
              error_message := some e
              response_time := some (env.tEnd - env.tStart) })
      ∧ (∀ html status, route_fetch env url use_browser = Except.ok (html, status) →
          (crawl_url env st url use_browser).1.success = true
            ∧ (crawl_url env st url use_browser).1.status_code = some status) := by
  constructor
  · intro e h
    simp [crawl_url, h]
  · intro html status h
    simp [crawl_url, h]

/-- A document against which every query fails. -/
def emptyDoc : Doc :=
  { selectOne := fun _ => none
    titleTag := none
    metaByName := fun _ => none
    metaOgDescription := none
    anchorHrefs := []
    imgSrcs := [] }

/-- An orchestrator whose session was never initialised and whose browser
fetch fails. -/
def envFail : CrawlEnv :=
  { session := none
    browserFetch := fun _ => Except.error "Failed to load page"
    parseHtml := fun _ => emptyDoc
    tStart := 0
    tLimNow := 0
    tLimAfter := 0
    tEnd := 1 }

/-- C1 witness: a failing browser fetch is converted into the failure
record with all content fields absent. -/
theorem crawl_url_spec_witness :
    (crawl_url envFail ⟨[]⟩ "https://example.org/post" true).1
      = { url := "https://example.org/post"
          success := false
          error_message := some "Failed to load page"
          response_time := some ((1 : Rat) - 0) } :=
  (crawl_url_spec envFail ⟨[]⟩ "https://example.org/post" true).1 "Failed to load page" rfl

/-- C9 (implicit): calling `crawl_url` for a static-fetch-routed URL on a
crawler whose session was never initialised does not raise: the internal
`RuntimeError` message is caught at the `crawl_url` boundary and returned
as a failure result with that message. -/
theorem crawl_url_uninitialized_session (env : CrawlEnv) (st : RateLimiterState)
    (url : String) (hs : env.session = none)
    (hnb : needs_browser (detect_platform url) = false) :
    (crawl_url env st url false).1.success = false
      ∧ (crawl_url env st url false).1.error_message
          = some "Session not initialized. Use async context manager." := by
  have hroute : route_fetch env url false
      = Except.error "Session not initialized. Use async context manager." := by
    simp [route_fetch, hnb, hs, crawl_with_http]
  simp [crawl_url, hroute]

/-- C9 witness: an unknown-platform URL routes to the static fetch, and
the uninitialised session surfaces as a failure result. -/
theorem crawl_url_uninitialized_session_witness :
    (crawl_url envFail ⟨[]⟩ "https://example.org/post" false).1.success = false
      ∧ (crawl_url envFail ⟨[]⟩ "https://example.org/post" false).1.error_message
          = some "Session not initialized. Use async context manager." :=
  crawl_url_uninitialized_session envFail ⟨[]⟩ "https://example.org/post" rfl (by decide)

/-- C7: the static fetch raises for every response with status at least
400 (carrying the `HTTP {status}: {reason}` message) and returns the body
text with the status code for every response below 400; at the
`crawl_url` boundary the raised error becomes a failure result, never a
success result embedding the error status. -/
theorem crawl_with_http_spec (get : SessionOracle) (url : String) :
    (∀ r, get url = NetOutcome.ok r → 400 ≤ r.status →
        crawl_with_http (some get) url
          = Except.error ("HTTP " ++ toString r.status ++ ": " ++ r.reason))
      ∧ (∀ r, get url = NetOutcome.ok r → r.status < 400 →
          crawl_with_http (some get) url = Except.ok (r.text, r.status))
      ∧ (∀ env st r, env.session = some get →
          needs_browser (detect_platform url) = false →
          get url = NetOutcome.ok r → 400 ≤ r.status →
          (crawl_url env st url false).1.success = false
            ∧ (crawl_url env st url false).1.error_message
                = some ("HTTP " ++ toString r.status ++ ": " ++ r.reason)) := by
  refine ⟨?_, ?_, ?_⟩
  · intro r hr hge
    simp [crawl_with_http, hr, hge]
  · intro r hr hlt
    simp [crawl_with_http, hr, not_le.mpr hlt]
  · intro env st r hs hnb hr hge
    have hroute : route_fetch env url false
        = Except.error ("HTTP " ++ toString r.status ++ ": " ++ r.reason) := by
      simp [route_fetch, hnb, hs, crawl_with_http, hr, hge]
    simp [crawl_url, hroute]

/-- A session whose every response is a 404. -/
def oracle404 : SessionOracle := fun _ => NetOutcome.ok ⟨404, "", "Not Found"⟩

/-- C7 witness: a 404 response yields the fetch-tier error, not a
success. -/
theorem crawl_with_http_spec_witness :
    crawl_with_http (some oracle404) "https://example.org/post"
      = Except.error ("HTTP " ++ toString 404 ++ ": " ++ "Not Found") :=
  (crawl_with_http_spec oracle404 "https://example.org/post").1
    ⟨404, "", "Not Found"⟩ rfl (by decide)

/-- C3: `crawl_multiple` returns exactly one result per input URL in
input order; a slot whose task escaped with an exception is captured in
that slot as a failure result with that URL and message, and every other
slot is unaffected (each slot depends only on its own URL's outcome). -/
theorem crawl_multiple_spec (urls : List String)
    (run : String → Except String CrawlResult) :
    (crawl_multiple urls run).length = urls.length
      ∧ (∀ i : Nat, (crawl_multiple urls run)[i]?
            = (urls[i]?).map (fun u => handle_outcome u (run u)))
      ∧ (∀ (i : Nat) (u e : String), urls[i]? = some u → run u = Except.error e →
          (crawl_multiple urls run)[i]?
            = some { url := u, success := false, error_message := some e })
      ∧ (∀ (i : Nat) (u : String) (r : CrawlResult),
          urls[i]? = some u → run u = Except.ok r →
          (crawl_multiple urls run)[i]? = some r) := by
  refine ⟨by simp [crawl_multiple], ?_, ?_, ?_⟩
  · intro i
    simp [crawl_multiple, List.getElem?_map]
  · intro i u e hu hr
    simp [crawl_multiple, List.getElem?_map, hu, handle_outcome, hr]
  · intro i u r hu hr
    simp [crawl_multiple, List.getElem?_map, hu, handle_outcome, hr]

/-- Per-URL outcomes of the spec's example batch: the second URL's fetch
fails, the others succeed. -/
def runBatchEx : String → Except String CrawlResult := fun u =>
  if u = "u2" then Except.error "connection refused"
  else Except.ok { url := u, success := true }

/-- C3 witness: a three-URL batch with a failing middle URL yields three
results in input order, the failure confined to its own slot. -/
theorem crawl_multiple_spec_witness :
    (crawl_multiple ["u1", "u2", "u3"] runBatchEx).length = 3
      ∧ (crawl_multiple ["u1", "u2", "u3"] runBatchEx)[1]?
          = some { url := "u2", success := false,
                   error_message := some "connection refused" }
      ∧ (crawl_multiple ["u1", "u2", "u3"] runBatchEx)[0]?
          = some { url := "u1", success := true } := by
  have h := crawl_multiple_spec ["u1", "u2", "u3"] runBatchEx
  exact ⟨h.1, h.2.2.1 1 "u2" "connection refused" rfl rfl,
         h.2.2.2 0 "u1" { url := "u1", success := true } rfl rfl⟩

/-- C6: link and image extraction keeps scheme-prefixed references as
they are, resolves references starting with `/` against the source URL,
drops every other relative form, and deduplicates: membership in the
result is exactly membership of a kept-or-resolved reference, the result
has no duplicates, and a document repeating one absolute URL three times
yields it exactly once. -/
theorem extract_links_images_spec (d : Doc) (base : String) :
    (extract_links d base).Nodup
      ∧ (extract_images d base).Nodup
      ∧ (∀ x, x ∈ extract_links d base
            ↔ ∃ href ∈ d.anchorHrefs, keepLink base href = some x)
      ∧ (∀ x, x ∈ extract_images d base
            ↔ ∃ src ∈ d.imgSrcs, keepLink base src = some x)
      ∧ (∀ href ∈ d.anchorHrefs,
          (strStartsWith href "http://" || strStartsWith href "https://") = true →
          href ∈ extract_links d base)
      ∧ (∀ href ∈ d.anchorHrefs,
          (strStartsWith href "http://" || strStartsWith href "https://") = false →
          strStartsWith href "/" = true →
          urljoin base href ∈ extract_links d base)
      ∧ (∀ u, d.anchorHrefs = [u, u, u] → strStartsWith u "https://" = true →
          extract_links d base = [u]) := by
  refine ⟨List.nodup_dedup _, List.nodup_dedup _, ?_, ?_, ?_, ?_, ?_⟩
  · intro x
    simp [extract_links, List.mem_dedup, List.mem_filterMap]
  · intro x
    simp [extract_images, List.mem_dedup, List.mem_filterMap]
  · intro href hmem hpre
    have hk : keepLink base href = some href := by
      simp [keepLink, hpre]
    simp only [extract_links, List.mem_dedup, List.mem_filterMap]
    exact ⟨href, hmem, hk⟩
  · intro href hmem hno hslash
    have hk : keepLink base href = some (urljoin base href) := by
      simp [keepLink, hno, hslash]
    simp only [extract_links, List.mem_dedup, List.mem_filterMap]
    exact ⟨href, hmem, hk⟩
  · intro u hanch hpre
    have hk : keepLink base u = some u := by
      simp [keepLink, hpre]
    simp [extract_links, hanch, hk, List.dedup_cons_of_mem]

/-- A document listing the same absolute URL three times among its
anchors. -/
def docTriple : Doc :=
  { selectOne := fun _ => none
    titleTag := none
    metaByName := fun _ => none
    metaOgDescription := none
    anchorHrefs := ["https://example.com/a", "https://example.com/a", "https://example.com/a"]
    imgSrcs := [] }

/-- C6 witness: the thrice-repeated URL appears exactly once. -/
theorem extract_links_images_spec_witness :
    extract_links docTriple "https://example.com/page" = ["https://example.com/a"] :=
  (extract_links_images_spec docTriple "https://example.com/page").2.2.2.2.2.2
    "https://example.com/a" rfl (by decide)

/-- C10 (implicit): a protocol-relative reference (`//host/...`) is not
dropped: it starts with `/`, so it is resolved against the source URL,
inheriting the source URL's scheme, and appears in the extraction
output. -/
theorem protocol_relative_resolved (d : Doc) (base href : String)
    (hs : urlScheme base ≠ "") (h2 : strStartsWith href "//" = true) :
    keepLink base href = some (urlScheme base ++ ":" ++ href)
      ∧ (href ∈ d.anchorHrefs →
          (urlScheme base ++ ":" ++ href) ∈ extract_links d base)
      ∧ (href ∈ d.imgSrcs →
          (urlScheme base ++ ":" ++ href) ∈ extract_images d base) := by
  have hpref : "//".toList <+: href.toList := of_decide_eq_true h2
  obtain ⟨t, ht⟩ := hpref
  have htl : href.toList = '/' :: '/' :: t := by
    rw [← ht]; rfl
  have hnh : strStartsWith href "http://" = false := by
    apply decide_eq_false
    intro hcon
    obtain ⟨t', ht'⟩ := hcon
    rw [htl] at ht'
    simp at ht'
  have hnhs : strStartsWith href "https://" = false := by
    apply decide_eq_false
    intro hcon
    obtain ⟨t', ht'⟩ := hcon
    rw [htl] at ht'
    simp at ht'
  have hsl : strStartsWith href "/" = true := by
    apply decide_eq_true
    exact ⟨'/' :: t, by rw [htl]; rfl⟩
  have hjoin : urljoin base href = urlScheme base ++ ":" ++ href := by
    simp [urljoin, h2, hs]
  have hk : keepLink base href = some (urlScheme base ++ ":" ++ href) := by
    simp [keepLink, hnh, hnhs, hsl, hjoin]
  refine ⟨hk, ?_, ?_⟩
  · intro hmem
    simp only [extract_links, List.mem_dedup, List.mem_filterMap]
    exact ⟨href, hmem, hk⟩
  · intro hmem
    simp only [extract_images, List.mem_dedup, List.mem_filterMap]
    exact ⟨href, hmem, hk⟩

/-- A document whose only anchor and only image are the same
protocol-relative reference. -/
def docProto : Doc :=
  { selectOne := fun _ => none
    titleTag := none
    metaByName := fun _ => none
    metaOgDescription := none
    anchorHrefs := ["//cdn.example.com/a.png"]
    imgSrcs := ["//cdn.example.com/a.png"] }

/-- C10 witness: the protocol-relative reference appears in the output,
resolved with the source URL's scheme. -/
theorem protocol_relative_resolved_witness :
    (urlScheme "https://example.com/page" ++ ":" ++ "//cdn.example.com/a.png")
      ∈ extract_links docProto "https://example.com/page" :=
  (protocol_relative_resolved docProto "https://example.com/page" "//cdn.example.com/a.png"
      (by decide) (by decide)).2.1 (by simp [docProto])

/-- C8: during a `crawl_multiple` run the number of simultaneously
in-flight pipeline executions never exceeds the configured ceiling; when
the ceiling is reached no permit is free, so no further task can enter
`crawl_url` — the only possible step is a completion releasing a
permit. -/
theorem crawl_multiple_concurrency_ceiling (s : SemSt)
    (h : SemReachable CONCURRENT_REQUESTS s) :
    s.inFlight.card ≤ CONCURRENT_REQUESTS
      ∧ (s.inFlight.card = CONCURRENT_REQUESTS → s.available = 0)
      ∧ (s.inFlight.card = CONCURRENT_REQUESTS →
          ∀ s', SemStep s s' → s'.inFlight.card + 1 = s.inFlight.card) := by
  have hinv := semReachable_invariant h
  refine ⟨by omega, by omega, ?_⟩
  intro hfull s' hstep
  cases hstep with
  | acquire t hav ht =>
      exfalso
      omega
  | release t ht =>
      have hpos := Finset.card_pos.mpr ⟨t, ht⟩
      simp only [Finset.card_erase_of_mem ht]
      omega

/-- C8 witness: the bound holds at the initial state of a run. -/
theorem crawl_multiple_concurrency_ceiling_witness :
    (initSemSt CONCURRENT_REQUESTS).inFlight.card ≤ CONCURRENT_REQUESTS :=
  (crawl_multiple_concurrency_ceiling (initSemSt CONCURRENT_REQUESTS)
      Relation.ReflTransGen.refl).1
